import Mathlib

/-!
Verification of the container-image build orchestrator
(`src/packages/docker.ts`, `src/packages/crypto.ts`, `src/packages/tarball.ts`,
`src/packages/gcp/cloudbuild.ts`) against its natural-language specification.

The development shallowly embeds the relevant TypeScript functions as
executable Lean definitions:

* `sha1Hex` / `sha256Hex` — the Node `crypto` digests the code relies on
  (`crypto.createHash('sha1')` in `getFileResourceIdentifier`,
  `crypto.createHash('sha256')` in `utils.hash`), implemented bit-for-bit
  over byte lists (`Nat` values below 256);
* `getFileResourceIdentifier` — the directory-tree hasher;
* the `AwaitingOutput` build-deduplication registry of `BaseDockerImage`;
* the local build pipeline `LocalDockerImage._checkImage`;
* the remote step assembly and result extraction of
  `RemoteDockerImage._checkImage`;
* `createTarballFromGit` / `createTarballFromDir` and the archive `clean`
  contract;
* `createBuild` of the CloudBuild dynamic provider (temporary-secret
  lifecycle).

External effects (subprocesses, the filesystem, the Cloud Build service) are
modelled by explicit oracles / state records so that the control flow of the
source is reproduced exactly.
-/

namespace PulumiComponents

/-! ## Byte and word helpers -/

/-- Truncate to a 32-bit word. -/
def w32 (n : Nat) : Nat := n % 4294967296

/-- Rotate a 32-bit word left by `s` bits (the word is assumed `< 2^32`). -/
def rotl32 (s n : Nat) : Nat := ((n <<< s) % 4294967296) ||| (n >>> (32 - s))

/-- Rotate a 32-bit word right by `s` bits. -/
def rotr32 (s n : Nat) : Nat := ((n <<< (32 - s)) % 4294967296) ||| (n >>> s)

/-- Big-endian 32-bit word from four bytes. -/
def beWord (a b c d : Nat) : Nat := ((a * 256 + b) * 256 + c) * 256 + d

/-- Group a byte list into big-endian 32-bit words (
incomplete trailing groups are dropped; inputs are always block-aligned). -/
def bytesToWords : List Nat → List Nat
  | a :: b :: c :: d :: rest => beWord a b c d :: bytesToWords rest
  | _ => []

/-- The eight big-endian bytes of a 64-bit length field. -/
def beBytes8 (n : Nat) : List Nat :=
  [(n >>> 56) % 256, (n >>> 48) % 256, (n >>> 40) % 256, (n >>> 32) % 256,
   (n >>> 24) % 256, (n >>> 16) % 256, (n >>> 8) % 256, n % 256]

/-- The four big-endian bytes of a 32-bit word. -/
def beBytes4 (n : Nat) : List Nat :=
  [(n >>> 24) % 256, (n >>> 16) % 256, (n >>> 8) % 256, n % 256]

/-- MD-style padding shared by SHA-1 and SHA-256: append `0x80`, zero bytes up
to 56 mod 64, then the bit length as a 64-bit big-endian integer. -/
def padMessage (msg : List Nat) : List Nat :=
  let len := msg.length
  let padZeros := (55 + 64 - (len % 64)) % 64
  msg ++ [128] ++ List.replicate padZeros 0 ++ beBytes8 (len * 8)

/-- Iterate a function `n` times. -/
def iterate {α : Type} (f : α → α) : Nat → α → α
  | 0, a => a
  | n + 1, a => iterate f n (f a)

/-- Lower-case hexadecimal digit. -/
def hexChar (n : Nat) : Char :=
  if n < 10 then Char.ofNat (48 + n) else Char.ofNat (87 + n)

/-- Two-digit lower-case hex encoding of one byte. -/
def byteToHex (b : Nat) : String :=
  String.mk [hexChar (b / 16), hexChar (b % 16)]

/-- Lower-case hex encoding of a byte list. -/
def bytesToHex (bs : List Nat) : String :=
  String.join (bs.map byteToHex)

/-! ## SHA-1 (`crypto.createHash('sha1')`) -/

/-- One SHA-1 message-schedule extension step: append
`rotl1 (w[n-3] xor w[n-8] xor w[n-14] xor w[n-16])`. -/
def sha1ExpandStep (ws : List Nat) : List Nat :=
  let n := ws.length
  ws ++ [rotl32 1 ((ws.getD (n - 3) 0 ^^^ ws.getD (n - 8) 0) ^^^
    (ws.getD (n - 14) 0 ^^^ ws.getD (n - 16) 0))]

/-- Extend the 16 block words to the 80-word SHA-1 schedule. -/
def sha1Schedule (ws : List Nat) : List Nat :=
  iterate sha1ExpandStep 64 ws

/-- SHA-1 round function (round `i`, schedule word `w`). -/
def sha1Round (st : Nat × Nat × Nat × Nat × Nat) (iw : Nat × Nat) :
    Nat × Nat × Nat × Nat × Nat :=
  let (a, b, c, d, e) := st
  let (i, w) := iw
  let f :=
    if i < 20 then (b &&& c) ||| ((b ^^^ 4294967295) &&& d)
    else if i < 40 then (b ^^^ c) ^^^ d
    else if i < 60 then ((b &&& c) ||| (b &&& d)) ||| (c &&& d)
    else (b ^^^ c) ^^^ d
  let k :=
    if i < 20 then 1518500249
    else if i < 40 then 1859775393
    else if i < 60 then 2400959708
    else 3395469782
  let temp := w32 (rotl32 5 a + f + e + k + w)
  (temp, a, rotl32 30 b, c, d)

/-- SHA-1 compression of one 64-byte block into the running state. -/
def sha1Compress (h : List Nat) (block : List Nat) : List Nat :=
  let ws := sha1Schedule (bytesToWords block)
  let init := (h.getD 0 0, h.getD 1 0, h.getD 2 0, h.getD 3 0, h.getD 4 0)
  let fin := ws.enum.foldl (fun st iw => sha1Round st iw) init
  [w32 (h.getD 0 0 + fin.1), w32 (h.getD 1 0 + fin.2.1),
   w32 (h.getD 2 0 + fin.2.2.1), w32 (h.getD 3 0 + fin.2.2.2.1),
   w32 (h.getD 4 0 + fin.2.2.2.2)]

/-- Fold the compression function over `n` 64-byte blocks. -/
def sha1Blocks : Nat → List Nat → List Nat → List Nat
  | 0, _, h => h
  | n + 1, bytes, h => sha1Blocks n (bytes.drop 64) (sha1Compress h (bytes.take 64))

/-- SHA-1 digest of a byte list, as 20 bytes. -/
def sha1 (msg : List Nat) : List Nat :=
  let padded := padMessage msg
  let h := sha1Blocks (padded.length / 64) padded
    [1732584193, 4023233417, 2562383102, 271733878, 3285377520]
  h.flatMap beBytes4

/-- SHA-1 digest of a byte list, lower-case hex (40 characters). -/
def sha1Hex (msg : List Nat) : String := bytesToHex (sha1 msg)

/-! ## SHA-256 (`crypto.createHash('sha256')`) -/

/-- The 64 SHA-256 round constants. -/
def sha256K : List Nat :=
  [1116352408, 1899447441, 3049323471, 3921009573, 961987163, 1508970993,
   2453635748, 2870763221, 3624381080, 310598401, 607225278, 1426881987,
   1925078388, 2162078206, 2614888103, 3248222580, 3835390401, 4022224774,
   264347078, 604807628, 770255983, 1249150122, 1555081692, 1996064986,
   2554220882, 2821834349, 2952996808, 3210313671, 3336571891, 3584528711,
   113926993, 338241895, 666307205, 773529912, 1294757372, 1396182291,
   1695183700, 1986661051, 2177026350, 2456956037, 2730485921, 2820302411,
   3259730800, 3345764771, 3516065817, 3600352804, 4094571909, 275423344,
   430227734, 506948616, 659060556, 883997877, 958139571, 1322822218,
   1537002063, 1747873779, 1955562222, 2024104815, 2227730452, 2361852424,
   2428436474, 2756734187, 3204031479, 3329325298]

/-- One SHA-256 message-schedule extension step. -/
def sha256ExpandStep (ws : List Nat) : List Nat :=
  let n := ws.length
  let w15 := ws.getD (n - 15) 0
  let w2 := ws.getD (n - 2) 0
  let s0 := (rotr32 7 w15 ^^^ rotr32 18 w15) ^^^ (w15 >>> 3)
  let s1 := (rotr32 17 w2 ^^^ rotr32 19 w2) ^^^ (w2 >>> 10)
  ws ++ [w32 (ws.getD (n - 16) 0 + s0 + ws.getD (n - 7) 0 + s1)]

/-- Extend the 16 block words to the 64-word SHA-256 schedule. -/
def sha256Schedule (ws : List Nat) : List Nat :=
  iterate sha256ExpandStep 48 ws

/-- SHA-256 round function (schedule word paired with its round constant). -/
def sha256Round (st : List Nat) (kw : Nat × Nat) : List Nat :=
  let a := st.getD 0 0
  let b := st.getD 1 0
  let c := st.getD 2 0
  let d := st.getD 3 0
  let e := st.getD 4 0
  let f := st.getD 5 0
  let g := st.getD 6 0
  let h := st.getD 7 0
  let s1 := (rotr32 6 e ^^^ rotr32 11 e) ^^^ rotr32 25 e
  let ch := (e &&& f) ^^^ ((e ^^^ 4294967295) &&& g)
  let temp1 := w32 (h + s1 + ch + kw.1 + kw.2)
  let s0 := (rotr32 2 a ^^^ rotr32 13 a) ^^^ rotr32 22 a
  let maj := ((a &&& b) ^^^ (a &&& c)) ^^^ (b &&& c)
  let temp2 := w32 (s0 + maj)
  [w32 (temp1 + temp2), a, b, c, w32 (d + temp1), e, f, g]

/-- SHA-256 compression of one 64-byte block into the running state. -/
def sha256Compress (h : List Nat) (block : List Nat) : List Nat :=
  let ws := sha256Schedule (bytesToWords block)
  let fin := (sha256K.zip ws).foldl sha256Round h
  (List.range 8).map (fun i => w32 (h.getD i 0 + fin.getD i 0))

/-- Fold the compression function over `n` 64-byte blocks. -/
def sha256Blocks : Nat → List Nat → List Nat → List Nat
  | 0, _, h => h
  | n + 1, bytes, h => sha256Blocks n (bytes.drop 64) (sha256Compress h (bytes.take 64))

/-- SHA-256 digest of a byte list, as 32 bytes. -/
def sha256 (msg : List Nat) : List Nat :=
  let padded := padMessage msg
  let h := sha256Blocks (padded.length / 64) padded
    [1779033703, 3144134277, 1013904242, 2773480762,
     1359893119, 2600822924, 528734635, 1541459225]
  h.flatMap beBytes4

/-- SHA-256 digest of a byte list, lower-case hex (64 characters). -/
def sha256Hex (msg : List Nat) : String := bytesToHex (sha256 msg)

/-- The bytes of an ASCII string (equal to its UTF-8 encoding; every string
the embedded code hashes is ASCII). -/
def strBytes (s : String) : List Nat := s.data.map Char.toNat

/-- `utils.hash`: SHA-256 hex digest of a string, truncated to `len`
characters (`hashValue.slice(0, length)`). -/
def utilsHash (input : String) (len : Nat) : String :=
  (sha256Hex (strBytes input)).take len

set_option maxRecDepth 4096 in
/-- Sanity anchor: SHA-1 of the empty message matches the published vector. -/
theorem sha1Hex_nil : sha1Hex [] = "da39a3ee5e6b4b0d3255bfef95601890afd80709" := by
  decide

set_option maxRecDepth 4096 in
/-- Sanity anchor: SHA-1 of "abc" matches the published vector. -/
theorem sha1Hex_abc :
    sha1Hex (strBytes "abc") = "a9993e364706816aba3e25717850c26c9cd0d89d" := by
  decide

set_option maxRecDepth 4096 in
/-- Sanity anchor: SHA-256 of the empty message matches the published vector. -/
theorem sha256Hex_nil :
    sha256Hex [] = "e3b0c44298fc1c149afbf4c8996fb92427ae41e4649b934ca495991b7852b855" := by
  decide

set_option maxRecDepth 4096 in
/-- Sanity anchor: SHA-256 of "abc" matches the published vector. -/
theorem sha256Hex_abc :
    sha256Hex (strBytes "abc") =
      "ba7816bf8f01cfea414140de5dae2223b00361a396177a9cb410ff61f20015ad" := by
  decide

/-! ## Directory-tree hashing (`getFileResourceIdentifier`, docker.ts)

`updateHashWithMultipleFiles` feeds the bytes of every regular file under a
path into one running SHA-1 state, recursing into subdirectories, iterating
the entries in exactly the order `fs.readdirSync` returns them (no sorting).
Directory entries that are neither regular files nor directories are skipped
by the source; the model covers trees of regular files and directories. -/

mutual

/-- A filesystem node: a regular file with its content bytes, or a
directory with its `readdirSync` enumeration of named children. -/
inductive FsEntry : Type
  | file (content : List Nat) : FsEntry
  | dir (entries : FsEntries) : FsEntry

/-- The enumerated children of a directory, in `readdirSync` order. -/
inductive FsEntries : Type
  | nil : FsEntries
  | cons (name : String) (entry : FsEntry) (rest : FsEntries) : FsEntries

end

mutual

/-- The byte stream `updateHashWithMultipleFiles` feeds into the SHA-1
state for a node: file contents concatenated in traversal order. -/
def hashStream : FsEntry → List Nat
  | .file c => c
  | .dir es => hashStreamEntries es

/-- The byte stream contributed by a directory's children, in
`readdirSync` order. -/
def hashStreamEntries : FsEntries → List Nat
  | .nil => []
  | .cons _ e rest => hashStream e ++ hashStreamEntries rest

end

/-- `getFileResourceIdentifier`: SHA-1 hex digest of the traversal byte
stream, truncated to 9 characters (`digest('hex').substring(0, 9)`). -/
def getFileResourceIdentifier (computeFrom : FsEntry) : String :=
  (sha1Hex (hashStream computeFrom)).take 9

/-- Project a directory's enumeration to (name, contributed byte stream)
pairs, used to state that two directories hold the same children up to
enumeration order. -/
def entryNamesAndStreams : FsEntries → List (String × List Nat)
  | .nil => []
  | .cons n e rest => (n, hashStream e) :: entryNamesAndStreams rest

/-! ## The `AwaitingOutput` build-deduplication registry
(`BaseDockerImage`, docker.ts)

`BaseDockerImage` keeps one process-wide static map
`AwaitingOutput : { [rawUrl: string]: Promise<...> }` shared by every
subclass.  The constructor computes `imageURI`, and only when
`AwaitingOutput[imageURI] === undefined` invokes `this._checkImage` and
stores its promise; `this.uri` always reads the stored entry.  A stored
promise is identified here by the backend whose `_checkImage` produced it
together with the global invocation index at the time of the call. -/

/-- Which subclass's `_checkImage` a construction would invoke. -/
inductive Backend : Type
  | localBuild : Backend
  | remoteBuild : Backend
deriving DecidableEq, Repr

/-- The stored pending result: provenance of the `_checkImage` call. -/
structure BuildPromise where
  backend : Backend
  callIndex : Nat
deriving DecidableEq, Repr

/-- Process-wide registry state: the `AwaitingOutput` map (newest entry
first) and the chronological list of `_checkImage` invocations. -/
structure RegistryState where
  awaitingOutput : List (String × BuildPromise)
  invocations : List (Backend × String)
deriving DecidableEq, Repr

/-- The registry state at process start: empty map, no invocations. -/
def initialRegistry : RegistryState := { awaitingOutput := [], invocations := [] }

/-- `AwaitingOutput[imageURI]` lookup. -/
def lookupAwaiting (m : List (String × BuildPromise)) (k : String) : Option BuildPromise :=
  match m with
  | [] => none
  | (k2, p) :: rest => if k2 = k then some p else lookupAwaiting rest k

/-- One `BaseDockerImage` construction for a backend and resolved
`imageURI`: if the map has no entry, `_checkImage` is invoked and its
promise stored; otherwise the stored promise is reused.  Returns the new
state and the promise assigned to `this.uri`. -/
def constructImage (st : RegistryState) (b : Backend) (imageURI : String) :
    RegistryState × BuildPromise :=
  match lookupAwaiting st.awaitingOutput imageURI with
  | some p => (st, p)
  | none =>
    let p : BuildPromise := { backend := b, callIndex := st.invocations.length }
    ({ awaitingOutput := (imageURI, p) :: st.awaitingOutput,
       invocations := st.invocations ++ [(b, imageURI)] }, p)

/-- Run a sequence of constructions, collecting each construction's
observed promise. -/
def runConstructions (st : RegistryState) :
    List (Backend × String) → RegistryState × List BuildPromise
  | [] => (st, [])
  | (b, k) :: rest =>
    let step := constructImage st b k
    let tail := runConstructions step.1 rest
    (tail.1, step.2 :: tail.2)

/-- How many `_checkImage` invocations a state records for a key. -/
def invocationsFor (st : RegistryState) (k : String) : Nat :=
  (st.invocations.filter (fun bk => bk.2 = k)).length

theorem lookupAwaiting_insert_self (m : List (String × BuildPromise))
    (k : String) (p : BuildPromise) :
    lookupAwaiting ((k, p) :: m) k = some p := by
  simp [lookupAwaiting]

/-- Once a key is stored, any further same-key constructions leave the
state unchanged and all observe the stored promise. -/
theorem runConstructions_hit (bs : List Backend) (st : RegistryState)
    (k : String) (p : BuildPromise)
    (h : lookupAwaiting st.awaitingOutput k = some p) :
    runConstructions st (bs.map (fun b => (b, k))) =
      (st, List.replicate bs.length p) := by
  induction bs with
  | nil => simp [runConstructions]
  | cons b rest ih =>
    simp only [List.map_cons, runConstructions, constructImage, h, ih,
      List.length_cons, List.replicate_succ]

theorem invocationsFor_append_one (st : RegistryState) (b : Backend) (k : String) :
    invocationsFor
      { awaitingOutput := (k, { backend := b, callIndex := st.invocations.length }) ::
          st.awaitingOutput,
        invocations := st.invocations ++ [(b, k)] } k =
      invocationsFor st k + 1 := by
  simp [invocationsFor]
/-! ### Claim theorems: build deduplication (C1) and backend namespaces (C9) -/

/-- C1: if the process-wide `AwaitingOutput` map has no entry for the
resolved image reference, the first construction invokes `_checkImage`
exactly once and stores its pending result; every later construction with
the same key observes that stored result (all constructions receive the
first promise) and invokes no further build for the key. -/
theorem awaitingOutput_invokes_once (st : RegistryState) (k : String)
    (b : Backend) (bs : List Backend)
    (h : lookupAwaiting st.awaitingOutput k = none) :
    (runConstructions st ((b, k) :: bs.map (fun b2 => (b2, k)))).2 =
      List.replicate (bs.length + 1)
        { backend := b, callIndex := st.invocations.length } ∧
    invocationsFor (runConstructions st ((b, k) :: bs.map (fun b2 => (b2, k)))).1 k =
      invocationsFor st k + 1 := by
  have hrun :
      runConstructions st ((b, k) :: bs.map (fun b2 => (b2, k))) =
        ({ awaitingOutput :=
            (k, { backend := b, callIndex := st.invocations.length }) ::
              st.awaitingOutput,
           invocations := st.invocations ++ [(b, k)] },
         List.replicate (bs.length + 1)
           { backend := b, callIndex := st.invocations.length }) := by
    simp only [runConstructions, constructImage, h]
    rw [runConstructions_hit bs _ k _ (lookupAwaiting_insert_self _ _ _)]
    simp [List.replicate_succ]
  rw [hrun]
  exact ⟨rfl, invocationsFor_append_one st b k⟩

/-- C1 witness: two later constructions after the first one, for the
reference `gcr.io/acme/svc:1.2.3`, starting from process start. -/
theorem awaitingOutput_invokes_once_witness :
    lookupAwaiting initialRegistry.awaitingOutput "gcr.io/acme/svc:1.2.3" = none ∧
    ((runConstructions initialRegistry
        ((Backend.localBuild, "gcr.io/acme/svc:1.2.3") ::
          [Backend.localBuild, Backend.localBuild].map
            (fun b2 => (b2, "gcr.io/acme/svc:1.2.3")))).2 =
      List.replicate ([Backend.localBuild, Backend.localBuild].length + 1)
        { backend := Backend.localBuild, callIndex := initialRegistry.invocations.length } ∧
    invocationsFor (runConstructions initialRegistry
        ((Backend.localBuild, "gcr.io/acme/svc:1.2.3") ::
          [Backend.localBuild, Backend.localBuild].map
            (fun b2 => (b2, "gcr.io/acme/svc:1.2.3")))).1 "gcr.io/acme/svc:1.2.3" =
      invocationsFor initialRegistry "gcr.io/acme/svc:1.2.3" + 1) :=
  ⟨by decide,
   awaitingOutput_invokes_once initialRegistry "gcr.io/acme/svc:1.2.3"
     Backend.localBuild [Backend.localBuild, Backend.localBuild] (by decide)⟩

/-- C9 counterexample: `AwaitingOutput` is one static map on the shared
base class keyed by the raw image URI alone, so a local build followed by
a remote build of the same resolved reference triggers exactly one
underlying build, and the remote construction observes the local
backend's result — not two distinct builds in separate namespaces. -/
theorem backend_namespace_shared_counterexample :
    (runConstructions initialRegistry
        [(Backend.localBuild, "gcr.io/acme/svc:v1"),
         (Backend.remoteBuild, "gcr.io/acme/svc:v1")]).1.invocations =
      [(Backend.localBuild, "gcr.io/acme/svc:v1")] ∧
    ((runConstructions initialRegistry
        [(Backend.localBuild, "gcr.io/acme/svc:v1"),
         (Backend.remoteBuild, "gcr.io/acme/svc:v1")]).2.getD 1
          { backend := Backend.remoteBuild, callIndex := 0 }).backend =
      Backend.localBuild := by
  decide

/-- C9 amended: both backends share the single process-wide key namespace
keyed by the resolved reference alone; a second construction for the same
reference — regardless of backend — reuses the first construction's stored
result, so only the first backend's build runs. -/
theorem backend_namespace_shared (st : RegistryState) (k : String)
    (b1 b2 : Backend) (h : lookupAwaiting st.awaitingOutput k = none) :
    (constructImage (constructImage st b1 k).1 b2 k).2 =
      (constructImage st b1 k).2 ∧
    (constructImage st b1 k).2.backend = b1 ∧
    (constructImage (constructImage st b1 k).1 b2 k).1 =
      (constructImage st b1 k).1 ∧
    invocationsFor (constructImage (constructImage st b1 k).1 b2 k).1 k =
      invocationsFor st k + 1 := by
  have h1 : constructImage st b1 k =
      ({ awaitingOutput :=
           (k, { backend := b1, callIndex := st.invocations.length }) ::
             st.awaitingOutput,
         invocations := st.invocations ++ [(b1, k)] },
       { backend := b1, callIndex := st.invocations.length }) := by
    simp [constructImage, h]
  rw [h1]
  refine ⟨?_, rfl, ?_, ?_⟩
  · simp [constructImage, lookupAwaiting_insert_self]
  · simp [constructImage, lookupAwaiting_insert_self]
  · simp only [constructImage, lookupAwaiting_insert_self]
    exact invocationsFor_append_one st b1 k
/-- C9 witness: from process start, a local then a remote construction
for the concrete reference `gcr.io/acme/svc:v2` share one stored result
produced by the local backend. -/
theorem backend_namespace_shared_witness :
    lookupAwaiting initialRegistry.awaitingOutput "gcr.io/acme/svc:v2" = none ∧
    ((constructImage (constructImage initialRegistry Backend.localBuild
        "gcr.io/acme/svc:v2").1 Backend.remoteBuild "gcr.io/acme/svc:v2").2 =
      (constructImage initialRegistry Backend.localBuild "gcr.io/acme/svc:v2").2 ∧
    (constructImage initialRegistry Backend.localBuild "gcr.io/acme/svc:v2").2.backend =
      Backend.localBuild ∧
    (constructImage (constructImage initialRegistry Backend.localBuild
        "gcr.io/acme/svc:v2").1 Backend.remoteBuild "gcr.io/acme/svc:v2").1 =
      (constructImage initialRegistry Backend.localBuild "gcr.io/acme/svc:v2").1 ∧
    invocationsFor (constructImage (constructImage initialRegistry Backend.localBuild
        "gcr.io/acme/svc:v2").1 Backend.remoteBuild "gcr.io/acme/svc:v2").1
        "gcr.io/acme/svc:v2" =
      invocationsFor initialRegistry "gcr.io/acme/svc:v2" + 1) :=
  ⟨by decide,
   backend_namespace_shared initialRegistry "gcr.io/acme/svc:v2"
     Backend.localBuild Backend.remoteBuild (by decide)⟩

/-! ### Claim theorems: tree-hash determinism (C2) -/

/-- Children of a two-file directory, enumerated as `a` then `b`. -/
def twoFileEntriesAB : FsEntries :=
  .cons "a.txt" (.file [104, 105]) (.cons "b.txt" (.file [33, 10]) .nil)

/-- The same two children, enumerated as `b` then `a` (the reverse
`readdirSync` order a different filesystem may report). -/
def twoFileEntriesBA : FsEntries :=
  .cons "b.txt" (.file [33, 10]) (.cons "a.txt" (.file [104, 105]) .nil)

set_option maxRecDepth 4096 in
/-- C2 counterexample: two directories holding byte-identical regular
files, whose only difference is the order in which the filesystem
enumerates the two entries (the second enumeration is the reverse of the
first), receive different digests from `getFileResourceIdentifier` — the
traversal follows `readdirSync` order and is not sorted. -/
theorem treeHash_enumeration_order_counterexample :
    entryNamesAndStreams twoFileEntriesBA =
      (entryNamesAndStreams twoFileEntriesAB).reverse ∧
    getFileResourceIdentifier (.dir twoFileEntriesAB) ≠
      getFileResourceIdentifier (.dir twoFileEntriesBA) := by
  decide

/-- C2 amended: the digest is a function of the concatenated file-content
byte stream in traversal (enumeration) order only — names, paths and
directory nesting never enter the hash — so two trees feeding the same
content stream in the same enumeration order always receive identical
digests; invariance under a *different* enumeration order does not hold. -/
theorem treeHash_content_only (t1 t2 : FsEntry)
    (h : hashStream t1 = hashStream t2) :
    getFileResourceIdentifier t1 = getFileResourceIdentifier t2 := by
  simp [getFileResourceIdentifier, h]

set_option maxRecDepth 4096 in
/-- C2 witness: a flat tree and a differently named, differently nested
tree feeding the same content stream receive the same digest. -/
theorem treeHash_content_only_witness :
    hashStream (.dir (.cons "x" (.file [3, 4]) .nil)) =
      hashStream (.dir (.cons "n" (.dir (.cons "i" (.file [3]) .nil))
        (.cons "j" (.file [4]) .nil))) ∧
    getFileResourceIdentifier (.dir (.cons "x" (.file [3, 4]) .nil)) =
      getFileResourceIdentifier (.dir (.cons "n" (.dir (.cons "i" (.file [3]) .nil))
        (.cons "j" (.file [4]) .nil))) :=
  ⟨by decide,
   treeHash_content_only _ _ (by decide)⟩
/-- `Except` results of the archive functions compared by a decision
procedure (for concrete witness evaluation). -/
instance {ε α : Type} [DecidableEq ε] [DecidableEq α] : DecidableEq (Except ε α) :=
  fun x y =>
    match x, y with
    | .error a, .error b =>
      if h : a = b then isTrue (by rw [h]) else isFalse (fun hc => by cases hc; exact h rfl)
    | .ok a, .ok b =>
      if h : a = b then isTrue (by rw [h]) else isFalse (fun hc => by cases hc; exact h rfl)
    | .error _, .ok _ => isFalse (fun hc => Except.noConfusion hc)
    | .ok _, .error _ => isFalse (fun hc => Except.noConfusion hc)

/-! ## Source archives (`createTarballFromDir` / `createTarballFromGit`,
crypto.ts)

The on-disk archive cache is modelled as an association of paths to a
content token (standing for the file's bytes and modification time: any
write changes the token, an untouched file keeps it). -/

/-- The archive cache directory contents: path, content token. -/
structure FS where
  files : List (String × Nat)
deriving DecidableEq, Repr

/-- `fs.existsSync` / read of a path's content token. -/
def FS.lookup (fs : FS) (p : String) : Option Nat :=
  (fs.files.find? (fun e => e.1 == p)).map (fun e => e.2)

/-- `fs.existsSync(p)`. -/
def FS.has (fs : FS) (p : String) : Bool := (fs.lookup p).isSome

/-- `fs.renameSync` of a freshly written file into place (clobbers). -/
def FS.add (fs : FS) (p : String) (c : Nat) : FS :=
  ⟨(p, c) :: fs.files.filter (fun e => e.1 != p)⟩

/-- `fs.unlinkSync(p)` (ignoring a missing file). -/
def FS.remove (fs : FS) (p : String) : FS :=
  ⟨fs.files.filter (fun e => e.1 != p)⟩

/-- `path.join(os.homedir(), '.cache', 'pulumi-tarballs')`. -/
def tarballDirPath (home : String) : String := home ++ "/.cache/pulumi-tarballs"

/-- External-world oracle for one `createTarballFromDir` call. -/
structure DirTarEnv where
  /-- `crypto.randomUUID()` result, used when no cache id is supplied. -/
  uuid : String
  /-- `fs.realpathSync(directory)`. -/
  canonicalDir : String
  /-- Exit status of `tar -zcf`. -/
  tarCreateOk : Bool
  /-- Exit status of the `tar -ztf` validation pass. -/
  tarCheckOk : Bool
  /-- Content token of the bytes the archive tool writes. -/
  contentToken : Nat
deriving DecidableEq, Repr

/-- Return value of `createTarballFromDir`. -/
structure DirTarResult where
  file : String
  uniqueID : String
  shouldClean : Bool
deriving DecidableEq, Repr

/-- The canonical cache path for a directory archive:
`{dirHash}-{cacheIdHash}.tar.gz` under the cache directory. -/
def dirTarballPath (home canonicalDir cacheID : String) : String :=
  tarballDirPath home ++ "/" ++ utilsHash canonicalDir 32 ++ "-" ++
    utilsHash cacheID 32 ++ ".tar.gz"

/-- The cache key actually used: the caller's id, or the generated UUID. -/
def dirCacheKey (env : DirTarEnv) (cacheID : Option String) : String :=
  cacheID.getD env.uuid

/-- `createTarballFromDir(directory, cacheID?, excludePatterns)`: when no
cache id is supplied a random one is generated and the result is flagged
single-use; an archive already at the canonical path is reused with
`shouldClean: false`; otherwise the archive is created, validated and
renamed into place. -/
def createTarballFromDir (home : String) (fs : FS) (env : DirTarEnv)
    (cacheID : Option String) (_excludePatterns : List String) :
    Except String (DirTarResult × FS) :=
  if fs.has (dirTarballPath home env.canonicalDir (dirCacheKey env cacheID)) then
    .ok ({ file := dirTarballPath home env.canonicalDir (dirCacheKey env cacheID),
           uniqueID := utilsHash env.canonicalDir 32 ++ "-" ++
             utilsHash (dirCacheKey env cacheID) 32,
           shouldClean := false }, fs)
  else if env.tarCreateOk = false then
    .error "tar failed: create"
  else if env.tarCheckOk = false then
    .error "tar failed: check"
  else
    .ok ({ file := dirTarballPath home env.canonicalDir (dirCacheKey env cacheID),
           uniqueID := utilsHash env.canonicalDir 32 ++ "-" ++
             utilsHash (dirCacheKey env cacheID) 32,
           shouldClean := cacheID.isNone },
      fs.add (dirTarballPath home env.canonicalDir (dirCacheKey env cacheID))
        env.contentToken)

/-- The `DirTarballArchive` component state after construction. -/
structure DirTarballArchive where
  uniqueID : String
  shouldClean : Bool
  path : String
deriving DecidableEq, Repr

/-- `DirTarballArchive`'s constructor projection of the tarball result. -/
def mkDirArchive (r : DirTarResult) : DirTarballArchive :=
  { uniqueID := r.uniqueID, shouldClean := r.shouldClean, path := r.file }

/-- `DirTarballArchive.clean()`: unlink the archive only when it was
flagged for cleanup, then clear the flag. -/
def cleanDirArchive (a : DirTarballArchive) (fs : FS) : DirTarballArchive × FS :=
  if a.shouldClean = false then (a, fs)
  else ({ a with shouldClean := false }, fs.remove a.path)

/-- External-world oracle for one `createTarballFromGit` call. -/
structure GitTarEnv where
  /-- Trimmed output of `git log --max-count=1 --format=%H HEAD .` or
  `git rev-parse <commit>`; empty when no commit was found. -/
  commitResolved : String
  /-- Trimmed output of `git rev-parse --prefix` (repo-relative path). -/
  prefixDir : String
  /-- Exit status of `git archive`. -/
  archiveOk : Bool
  /-- Exit status of the `tar -ztf` validation pass. -/
  tarCheckOk : Bool
  /-- Content token of the bytes `git archive` writes. -/
  contentToken : Nat
deriving DecidableEq, Repr

/-- Return value of `createTarballFromGit`. -/
structure GitTarResult where
  commit : String
  file : String
  uniqueID : String
deriving DecidableEq, Repr

/-- Archive-related external commands a `createTarballFromGit` call runs
after resolving the commit. -/
inductive TarCmd : Type
  | unlinkTmp : TarCmd
  | gitArchive : TarCmd
  | tarCheck : TarCmd
  | renameIntoPlace : TarCmd
deriving DecidableEq, Repr

/-- The canonical cache path for a git archive:
`{pathDigest}-{commit}.tar.gz` under the cache directory. -/
def gitTarballPath (home prefixDir commit : String) : String :=
  tarballDirPath home ++ "/" ++ utilsHash prefixDir 32 ++ "-" ++ commit ++ ".tar.gz"

/-- `createTarballFromGit(directory, commitID)`: resolve the commit, reuse
an archive already at the canonical cache path, otherwise produce the
archive deterministically, validate it and rename it into place.  The
returned command list records the archive-related external commands run. -/
def createTarballFromGit (home : String) (fs : FS) (env : GitTarEnv) :
    Except String (GitTarResult × FS × List TarCmd) :=
  if env.commitResolved = "" then
    .error "Could not find commit"
  else if fs.has (gitTarballPath home env.prefixDir env.commitResolved) then
    .ok ({ commit := env.commitResolved,
           file := gitTarballPath home env.prefixDir env.commitResolved,
           uniqueID := utilsHash env.prefixDir 32 ++ "-" ++ env.commitResolved },
      fs, [])
  else if env.archiveOk = false then
    .error "tar failed: archive"
  else if env.tarCheckOk = false then
    .error "tar failed: check"
  else
    .ok ({ commit := env.commitResolved,
           file := gitTarballPath home env.prefixDir env.commitResolved,
           uniqueID := utilsHash env.prefixDir 32 ++ "-" ++ env.commitResolved },
      fs.add (gitTarballPath home env.prefixDir env.commitResolved) env.contentToken,
      [.unlinkTmp, .gitArchive, .tarCheck, .renameIntoPlace])

theorem FS.has_add_self (fs : FS) (p : String) (c : Nat) :
    (fs.add p c).has p = true := by
  simp [FS.has, FS.add, FS.lookup, List.find?]

/-! ### Claim theorems: git-archive cache idempotence (C7) and
directory-archive cleanup (C8) -/

/-- C7: once a git archive for `{pathDigest}-{commit}` is on disk, an
invocation with the same directory and commit returns the very same
result with the filesystem completely unchanged (so the archive's bytes
and modification time are untouched) and runs none of the archive
commands â no re-creation, no re-write, no re-validation.  Stated for the
state `fs1` left by any successful invocation, which always has the
archive at its canonical path. -/
theorem gitArchive_cache_reuse (home : String) (fs : FS) (env : GitTarEnv)
    (r : GitTarResult) (fs1 : FS) (tr : List TarCmd)
    (h : createTarballFromGit home fs env = .ok (r, fs1, tr)) :
    createTarballFromGit home fs1 env = .ok (r, fs1, []) := by
  unfold createTarballFromGit at h ⊢
  split at h
  · exact absurd h (by simp)
  next hc =>
    rw [if_neg hc]
    split at h
    next hhit =>
      simp only [Except.ok.injEq, Prod.mk.injEq] at h
      obtain ⟨h1, h2, h3⟩ := h
      rw [if_pos (h2 ▸ hhit), h1]
    next hmiss =>
      split at h
      · exact absurd h (by simp)
      split at h
      · exact absurd h (by simp)
      simp only [Except.ok.injEq, Prod.mk.injEq] at h
      obtain ⟨h1, h2, h3⟩ := h
      have hfs1 : fs1.has (gitTarballPath home env.prefixDir env.commitResolved) = true := by
        rw [← h2]
        exact FS.has_add_self ..
      rw [if_pos hfs1, h1]

/-- Concrete oracle for the C7 witness: commit resolves, archive tool and
validation succeed. -/
def gitEnvW : GitTarEnv :=
  { commitResolved := "abc123", prefixDir := "", archiveOk := true,
    tarCheckOk := true, contentToken := 7 }

/-- The filesystem after the C7 witness's first (creating) invocation. -/
def gitFsW : FS := FS.add ⟨[]⟩ (gitTarballPath "/root" "" "abc123") 7

/-- The result record of the C7 witness invocations. -/
def gitResW : GitTarResult :=
  { commit := "abc123", file := gitTarballPath "/root" "" "abc123",
    uniqueID := utilsHash "" 32 ++ "-" ++ "abc123" }

set_option maxRecDepth 8192 in
/-- C7 witness: a concrete first invocation creates the archive; the
repeat invocation returns the same path, leaves the filesystem unchanged
and runs no archive command. -/
theorem gitArchive_cache_reuse_witness :
    createTarballFromGit "/root" ⟨[]⟩ gitEnvW =
      .ok (gitResW, gitFsW, [.unlinkTmp, .gitArchive, .tarCheck, .renameIntoPlace]) ∧
    createTarballFromGit "/root" gitFsW gitEnvW = .ok (gitResW, gitFsW, []) :=
  ⟨by decide,
   gitArchive_cache_reuse "/root" ⟨[]⟩ gitEnvW gitResW gitFsW
     [.unlinkTmp, .gitArchive, .tarCheck, .renameIntoPlace] (by decide)⟩

theorem find?_filter_ne (l : List (String × Nat)) (p : String) :
    (l.filter (fun e => e.1 != p)).find? (fun e => e.1 == p) = none := by
  induction l with
  | nil => rfl
  | cons x xs ih =>
    by_cases hx : x.1 = p
    · rw [List.filter_cons_of_neg (by simp [hx])]
      exact ih
    · rw [List.filter_cons_of_pos (by simp [hx])]
      rw [List.find?_cons_of_neg _ (by simp [hx])]
      exact ih

theorem FS.has_remove_self (fs : FS) (p : String) :
    (fs.remove p).has p = false := by
  simp [FS.has, FS.remove, FS.lookup, find?_filter_ne]

/-- C8: a directory archive built without a caller-supplied cache id (one
was auto-generated, so its canonical path is fresh) is flagged single-use
and `clean()` unlinks it from disk; one built with an explicit cache id is
never flagged, `clean()` is a no-op, and the archive file stays on disk as
a warm cache. -/
theorem dirArchive_clean_single_use (home : String) (fs : FS) (env : DirTarEnv)
    (excl : List String) :
    (∀ r fs2, createTarballFromDir home fs env none excl = .ok (r, fs2) →
      fs.has (dirTarballPath home env.canonicalDir env.uuid) = false →
      r.shouldClean = true ∧
      (cleanDirArchive (mkDirArchive r) fs2).2.has r.file = false ∧
      (cleanDirArchive (mkDirArchive r) fs2).1.shouldClean = false) ∧
    (∀ c r fs2, createTarballFromDir home fs env (some c) excl = .ok (r, fs2) →
      r.shouldClean = false ∧
      cleanDirArchive (mkDirArchive r) fs2 = (mkDirArchive r, fs2) ∧
      fs2.has r.file = true) := by
  constructor
  · intro r fs2 hok hfresh
    unfold createTarballFromDir at hok
    simp only [dirCacheKey, Option.getD_none, Option.isNone_none] at hok
    rw [if_neg (by simp [hfresh])] at hok
    split at hok
    · exact absurd hok (by simp)
    split at hok
    · exact absurd hok (by simp)
    simp only [Except.ok.injEq, Prod.mk.injEq] at hok
    obtain ⟨h1, h2⟩ := hok
    refine ⟨by rw [← h1], ?_, by simp [cleanDirArchive, ← h1, mkDirArchive]⟩
    rw [← h1, ← h2]
    simp only [cleanDirArchive, mkDirArchive]
    exact FS.has_remove_self ..
  · intro c r fs2 hok
    unfold createTarballFromDir at hok
    simp only [dirCacheKey, Option.getD_some, Option.isNone_some] at hok
    split at hok
    next hhit =>
      simp only [Except.ok.injEq, Prod.mk.injEq] at hok
      obtain ⟨h1, h2⟩ := hok
      refine ⟨by rw [← h1], by simp [cleanDirArchive, ← h1, mkDirArchive], ?_⟩
      rw [← h1, ← h2]
      exact hhit
    next hmiss =>
      split at hok
      · exact absurd hok (by simp)
      split at hok
      · exact absurd hok (by simp)
      simp only [Except.ok.injEq, Prod.mk.injEq] at hok
      obtain ⟨h1, h2⟩ := hok
      refine ⟨by rw [← h1], by simp [cleanDirArchive, ← h1, mkDirArchive], ?_⟩
      rw [← h1, ← h2]
      exact FS.has_add_self ..

/-- Concrete oracle for the C8 witness. -/
def dirEnvW : DirTarEnv :=
  { uuid := "u1", canonicalDir := "/src", tarCreateOk := true,
    tarCheckOk := true, contentToken := 3 }

/-- C8 witness, auto-generated-id branch: result record. -/
def dirAutoResW : DirTarResult :=
  { file := dirTarballPath "/h" "/src" "u1",
    uniqueID := utilsHash "/src" 32 ++ "-" ++ utilsHash "u1" 32,
    shouldClean := true }

/-- C8 witness, auto-generated-id branch: filesystem after creation. -/
def dirAutoFsW : FS := FS.add ⟨[]⟩ (dirTarballPath "/h" "/src" "u1") 3

/-- C8 witness, explicit-cache-id branch: result record. -/
def dirExplicitResW : DirTarResult :=
  { file := dirTarballPath "/h" "/src" "warm",
    uniqueID := utilsHash "/src" 32 ++ "-" ++ utilsHash "warm" 32,
    shouldClean := false }

/-- C8 witness, explicit-cache-id branch: filesystem after creation. -/
def dirExplicitFsW : FS := FS.add ⟨[]⟩ (dirTarballPath "/h" "/src" "warm") 3

set_option maxRecDepth 8192 in
/-- C8 witness: with a fresh generated id, `clean()` removes the archive;
with the explicit id "warm", `clean()` leaves it on disk. -/
theorem dirArchive_clean_single_use_witness :
    (dirAutoResW.shouldClean = true ∧
      (cleanDirArchive (mkDirArchive dirAutoResW) dirAutoFsW).2.has dirAutoResW.file = false ∧
      (cleanDirArchive (mkDirArchive dirAutoResW) dirAutoFsW).1.shouldClean = false) ∧
    (dirExplicitResW.shouldClean = false ∧
      cleanDirArchive (mkDirArchive dirExplicitResW) dirExplicitFsW =
        (mkDirArchive dirExplicitResW, dirExplicitFsW) ∧
      dirExplicitFsW.has dirExplicitResW.file = true) :=
  ⟨(dirArchive_clean_single_use "/h" ⟨[]⟩ dirEnvW []).1 dirAutoResW dirAutoFsW
     (by decide) (by decide),
   (dirArchive_clean_single_use "/h" ⟨[]⟩ dirEnvW []).2 "warm" dirExplicitResW
     dirExplicitFsW (by decide)⟩
/-! ## The local build pipeline (`LocalDockerImage._checkImage`, docker.ts)

The pipeline is strictly sequential: remove the stale local image
(errors swallowed), pull the cache image when configured (errors
swallowed), materialize the build context (possibly extracting a git
tarball into a fresh temporary directory), write the secrets file when
secrets are supplied, `docker build`, `docker image push`, one
`docker tag` + `docker image push` per additional tag, and
`docker image inspect` for the digest.  A `catch` logs the failure with
the image reference and rethrows the original error; a `finally` removes
the temporary build directory and the secrets directory. -/

/-- Outcomes of the external subprocesses of one local build. -/
structure LocalEnv where
  /-- `docker image rm <uri>` (step 1, errors swallowed). -/
  imageRm : Except String Unit
  /-- `docker pull <cache>` (step 2, errors swallowed). -/
  cachePull : Except String Unit
  /-- Git tarball materialization: the archive path on success. -/
  tarballCreate : Except String String
  /-- `tar -zxf` extraction into the temporary directory. -/
  extractOk : Bool
  /-- `docker build`. -/
  dockerBuild : Except String Unit
  /-- `docker image push` of the primary tag. -/
  dockerPush : Except String Unit
  /-- `docker tag` + `docker image push` per additional tag, in order. -/
  tagPushes : List (Except String Unit)
  /-- `docker image inspect`: the repo digest on success. -/
  inspect : Except String String
deriving DecidableEq, Repr

/-- The `buildDirectory` input: a plain path, or a git working copy whose
archive is extracted into a temporary directory. -/
inductive BuildDirInput : Type
  | plainDir (path : String) : BuildDirInput
  | gitSource : BuildDirInput
deriving DecidableEq, Repr

/-- The parts of the image input the local pipeline branches on. -/
structure LocalBuildInput where
  buildDirectory : BuildDirInput
  hasSecrets : Bool
  tags : List String
deriving DecidableEq, Repr

/-- The `fs.mkdtempSync` template for build-context extraction. -/
def tmpBuildDirName : String := "/tmp/docker-build-"

/-- `getBuildDirectory`: result, whether a temporary directory was
created, whether the extract `catch` removed it immediately, and whether
`cleanTmpDir` was recorded for the `finally` cleanup. -/
def getBuildDirectoryRun (env : LocalEnv) :
    BuildDirInput → Except String Unit × Bool × Bool × Bool
  | .plainDir _ => (.ok (), false, false, false)
  | .gitSource =>
    match env.tarballCreate with
    | .error e => (.error e, false, false, false)
    | .ok tarballPath =>
      if env.extractOk then (.ok (), true, false, true)
      else (.error ("Failed to extract tarball " ++ tarballPath ++ " to " ++ tmpBuildDirName),
        true, true, false)

/-- First failure of the additional-tag loop (`docker tag` + push per tag). -/
def firstErr : List (Except String Unit) → Except String Unit
  | [] => .ok ()
  | .ok _ :: rest => firstErr rest
  | .error e :: _ => .error e

/-- The fatal portion of the pipeline: context materialization, build,
push, tag pushes, digest inspection — the first failure wins and its
error is returned unchanged. -/
def localFatalChain (env : LocalEnv) (input : LocalBuildInput) : Except String String :=
  match (getBuildDirectoryRun env input.buildDirectory).1 with
  | .error e => .error e
  | .ok _ =>
    match env.dockerBuild with
    | .error e => .error e
    | .ok _ =>
      match env.dockerPush with
      | .error e => .error e
      | .ok _ =>
        match firstErr (env.tagPushes.take input.tags.length) with
        | .error e => .error e
        | .ok _ => env.inspect

/-- The `catch` block's `console.log` line. -/
def failMsg (imageURI : String) : String :=
  "Failed to build local Docker image " ++ imageURI ++ ":"

/-- Observable outcome of one local `_checkImage` run. -/
structure LocalRunResult where
  /-- The settled value of the returned promise. -/
  result : Except String String
  /-- `console.log` lines emitted. -/
  log : List String
  /-- A `/tmp/docker-build-` temporary directory was created. -/
  tmpDirCreated : Bool
  /-- That directory was removed (by the extract `catch` or by `clean()`). -/
  tmpDirRemoved : Bool
  /-- A `/tmp/docker-secrets-` directory was created. -/
  secretsDirCreated : Bool
  /-- That directory was removed by the `finally` block. -/
  secretsDirRemoved : Bool
deriving DecidableEq, Repr

/-- Outcome of the `try`/`catch` phase of `LocalDockerImage._checkImage`,
before the `finally` block runs.  `env.imageRm` and `env.cachePull` are
the swallowed best-effort steps: their outcomes are recorded in the
oracle but the control flow never branches on them.  (The `rmSync` inside
the extract `catch` of `getBuildDirectory` is modelled as succeeding;
the fallible removals of the `finally` block live in `applyFinally`.) -/
structure LocalTryOutcome where
  /-- The settled value of the `try`/`catch` (the rethrown original
  error, or the digest). -/
  result : Except String String
  /-- `console.log` lines emitted by the `catch`. -/
  log : List String
  /-- A `/tmp/docker-build-` temporary directory was created. -/
  tmpDirCreated : Bool
  /-- That directory was already removed by the extract `catch`. -/
  tmpRemovedEarly : Bool
  /-- `cleanTmpDir` was recorded, so `clean()` will call `fs.rmSync`. -/
  cleanTmpSet : Bool
  /-- A `/tmp/docker-secrets-` directory was created. -/
  secretsDirCreated : Bool
deriving DecidableEq, Repr

/-- The `try`/`catch` phase of `LocalDockerImage._checkImage`. -/
def localTryPhase (env : LocalEnv) (input : LocalBuildInput) (imageURI : String) :
    LocalTryOutcome :=
  match (getBuildDirectoryRun env input.buildDirectory).1 with
  | .error e =>
    { result := .error e, log := [failMsg imageURI],
      tmpDirCreated := (getBuildDirectoryRun env input.buildDirectory).2.1,
      tmpRemovedEarly := (getBuildDirectoryRun env input.buildDirectory).2.2.1,
      cleanTmpSet := (getBuildDirectoryRun env input.buildDirectory).2.2.2,
      secretsDirCreated := false }
  | .ok _ =>
    match env.dockerBuild with
    | .error e =>
      { result := .error e, log := [failMsg imageURI],
        tmpDirCreated := (getBuildDirectoryRun env input.buildDirectory).2.1,
        tmpRemovedEarly := (getBuildDirectoryRun env input.buildDirectory).2.2.1,
        cleanTmpSet := (getBuildDirectoryRun env input.buildDirectory).2.2.2,
        secretsDirCreated := input.hasSecrets }
    | .ok _ =>
      match env.dockerPush with
      | .error e =>
        { result := .error e, log := [failMsg imageURI],
          tmpDirCreated := (getBuildDirectoryRun env input.buildDirectory).2.1,
          tmpRemovedEarly := (getBuildDirectoryRun env input.buildDirectory).2.2.1,
          cleanTmpSet := (getBuildDirectoryRun env input.buildDirectory).2.2.2,
          secretsDirCreated := input.hasSecrets }
      | .ok _ =>
        match firstErr (env.tagPushes.take input.tags.length) with
        | .error e =>
          { result := .error e, log := [failMsg imageURI],
            tmpDirCreated := (getBuildDirectoryRun env input.buildDirectory).2.1,
            tmpRemovedEarly := (getBuildDirectoryRun env input.buildDirectory).2.2.1,
            cleanTmpSet := (getBuildDirectoryRun env input.buildDirectory).2.2.2,
            secretsDirCreated := input.hasSecrets }
        | .ok _ =>
          match env.inspect with
          | .error e =>
            { result := .error e, log := [failMsg imageURI],
              tmpDirCreated := (getBuildDirectoryRun env input.buildDirectory).2.1,
              tmpRemovedEarly := (getBuildDirectoryRun env input.buildDirectory).2.2.1,
              cleanTmpSet := (getBuildDirectoryRun env input.buildDirectory).2.2.2,
              secretsDirCreated := input.hasSecrets }
          | .ok digest =>
            { result := .ok digest, log := [],
              tmpDirCreated := (getBuildDirectoryRun env input.buildDirectory).2.1,
              tmpRemovedEarly := (getBuildDirectoryRun env input.buildDirectory).2.2.1,
              cleanTmpSet := (getBuildDirectoryRun env input.buildDirectory).2.2.2,
              secretsDirCreated := input.hasSecrets }

/-- Outcomes of the `finally` block's `fs.rmSync` removals.  With
`force: true` only a missing path is suppressed; any other failure
(e.g. EACCES) throws. -/
structure CleanupEnv where
  /-- `fs.rmSync(cleanDir, ...)` inside `clean()`. -/
  cleanTmpRm : Except String Unit
  /-- `fs.rmSync(secretsDir, ...)` after `clean()` in the `finally`. -/
  secretsRm : Except String Unit
deriving DecidableEq, Repr

/-- The secrets-directory removal of the `finally` block (it runs only
when `clean()` did not throw): a throw replaces the run's outcome. -/
def afterSecrets (t : LocalTryOutcome) (cenv : CleanupEnv) (tmpRemoved : Bool) :
    LocalRunResult :=
  match t.secretsDirCreated, cenv.secretsRm with
  | true, .error e =>
    { result := .error e, log := t.log, tmpDirCreated := t.tmpDirCreated,
      tmpDirRemoved := tmpRemoved, secretsDirCreated := true,
      secretsDirRemoved := false }
  | true, .ok _ =>
    { result := t.result, log := t.log, tmpDirCreated := t.tmpDirCreated,
      tmpDirRemoved := tmpRemoved, secretsDirCreated := true,
      secretsDirRemoved := true }
  | false, _ =>
    { result := t.result, log := t.log, tmpDirCreated := t.tmpDirCreated,
      tmpDirRemoved := tmpRemoved, secretsDirCreated := false,
      secretsDirRemoved := false }

/-- The `finally` block: `this.clean()` first — if its `rmSync` throws,
the exception replaces the try/catch outcome and the secrets-directory
removal is skipped — then the secrets-directory removal. -/
def applyFinally (t : LocalTryOutcome) (cenv : CleanupEnv) : LocalRunResult :=
  match t.cleanTmpSet, cenv.cleanTmpRm with
  | true, .error e =>
    { result := .error e, log := t.log, tmpDirCreated := t.tmpDirCreated,
      tmpDirRemoved := t.tmpRemovedEarly, secretsDirCreated := t.secretsDirCreated,
      secretsDirRemoved := false }
  | true, .ok _ => afterSecrets t cenv true
  | false, _ => afterSecrets t cenv t.tmpRemovedEarly

/-- The cleanup oracle in which both removals succeed. -/
def cleanupOk : CleanupEnv := { cleanTmpRm := .ok (), secretsRm := .ok () }

/-- `LocalDockerImage._checkImage`: the full pipeline — the try/catch
phase followed by the `finally` block with its fallible removals. -/
def localCheckImageRun (env : LocalEnv) (cenv : CleanupEnv)
    (input : LocalBuildInput) (imageURI : String) : LocalRunResult :=
  applyFinally (localTryPhase env input imageURI) cenv

/-- The run in which the `finally` block's removals succeed (the only
case in which the pipeline's own outcome is what the caller observes). -/
def localCheckImage (env : LocalEnv) (input : LocalBuildInput) (imageURI : String) :
    LocalRunResult :=
  localCheckImageRun env cleanupOk input imageURI

theorem localTryPhase_result (env : LocalEnv) (input : LocalBuildInput)
    (uri : String) :
    (localTryPhase env input uri).result = localFatalChain env input := by
  unfold localTryPhase localFatalChain
  cases (getBuildDirectoryRun env input.buildDirectory).1 <;>
    cases env.dockerBuild <;> cases env.dockerPush <;>
      cases firstErr (env.tagPushes.take input.tags.length) <;>
        cases env.inspect <;> rfl

theorem localTryPhase_log (env : LocalEnv) (input : LocalBuildInput)
    (uri : String) :
    (localTryPhase env input uri).log =
      (match localFatalChain env input with
        | .error _ => [failMsg uri]
        | .ok _ => []) := by
  unfold localTryPhase localFatalChain
  cases (getBuildDirectoryRun env input.buildDirectory).1 <;>
    cases env.dockerBuild <;> cases env.dockerPush <;>
      cases firstErr (env.tagPushes.take input.tags.length) <;>
        cases env.inspect <;> rfl

theorem localTryPhase_tmp (env : LocalEnv) (input : LocalBuildInput)
    (uri : String) :
    (localTryPhase env input uri).tmpDirCreated = true →
      ((localTryPhase env input uri).tmpRemovedEarly ||
        (localTryPhase env input uri).cleanTmpSet) = true := by
  have hdir : forall bd, (getBuildDirectoryRun env bd).2.1 = true →
      ((getBuildDirectoryRun env bd).2.2.1 || (getBuildDirectoryRun env bd).2.2.2) = true := by
    intro bd
    cases bd with
    | plainDir p => simp [getBuildDirectoryRun]
    | gitSource =>
      cases htc : env.tarballCreate with
      | error e => simp [getBuildDirectoryRun, htc]
      | ok p =>
        by_cases hx : env.extractOk = true <;>
          simp [getBuildDirectoryRun, htc, hx]
  unfold localTryPhase
  cases (getBuildDirectoryRun env input.buildDirectory).1 <;>
    cases env.dockerBuild <;> cases env.dockerPush <;>
      cases firstErr (env.tagPushes.take input.tags.length) <;>
        cases env.inspect <;>
          exact hdir input.buildDirectory

theorem applyFinally_ok (t : LocalTryOutcome) :
    applyFinally t cleanupOk =
      { result := t.result, log := t.log, tmpDirCreated := t.tmpDirCreated,
        tmpDirRemoved := t.tmpRemovedEarly || t.cleanTmpSet,
        secretsDirCreated := t.secretsDirCreated,
        secretsDirRemoved := t.secretsDirCreated } := by
  unfold applyFinally afterSecrets cleanupOk
  cases t.cleanTmpSet <;> cases t.secretsDirCreated <;> simp

theorem localCheckImage_spec (env : LocalEnv) (input : LocalBuildInput)
    (uri : String) :
    localCheckImage env input uri =
      { result := (localTryPhase env input uri).result,
        log := (localTryPhase env input uri).log,
        tmpDirCreated := (localTryPhase env input uri).tmpDirCreated,
        tmpDirRemoved := (localTryPhase env input uri).tmpRemovedEarly ||
          (localTryPhase env input uri).cleanTmpSet,
        secretsDirCreated := (localTryPhase env input uri).secretsDirCreated,
        secretsDirRemoved := (localTryPhase env input uri).secretsDirCreated } := by
  unfold localCheckImage localCheckImageRun
  exact applyFinally_ok (localTryPhase env input uri)

theorem localCheckImage_result_eq_chain (env : LocalEnv) (input : LocalBuildInput)
    (uri : String) :
    (localCheckImage env input uri).result = localFatalChain env input := by
  rw [localCheckImage_spec]
  exact localTryPhase_result env input uri

theorem localCheckImage_swallows_optional (env : LocalEnv) (input : LocalBuildInput)
    (uri : String) (rm cp : Except String Unit) :
    localCheckImage { env with imageRm := rm, cachePull := cp } input uri =
      localCheckImage env input uri := by
  rcases env with ⟨rm0, cp0, tc, ex, db, dp, tp, ins⟩
  rfl

theorem localCheckImage_log_spec (env : LocalEnv) (input : LocalBuildInput)
    (uri : String) :
    (localCheckImage env input uri).log =
      (match localFatalChain env input with
        | .error _ => [failMsg uri]
        | .ok _ => []) := by
  rw [localCheckImage_spec]
  exact localTryPhase_log env input uri

theorem localCheckImageRun_tmp_ok (env : LocalEnv) (input : LocalBuildInput)
    (uri : String) (srm : Except String Unit) :
    (localCheckImageRun env { cleanTmpRm := .ok (), secretsRm := srm } input uri).tmpDirCreated =
      (localTryPhase env input uri).tmpDirCreated ∧
    (localCheckImageRun env { cleanTmpRm := .ok (), secretsRm := srm } input uri).tmpDirRemoved =
      ((localTryPhase env input uri).tmpRemovedEarly ||
        (localTryPhase env input uri).cleanTmpSet) := by
  unfold localCheckImageRun applyFinally afterSecrets
  cases (localTryPhase env input uri).cleanTmpSet <;>
    cases (localTryPhase env input uri).secretsDirCreated <;>
      cases srm <;> simp

theorem localCheckImageRun_clean_fail (env : LocalEnv) (input : LocalBuildInput)
    (uri : String) (e : String) (srm : Except String Unit)
    (h : (localTryPhase env input uri).cleanTmpSet = true) :
    localCheckImageRun env { cleanTmpRm := .error e, secretsRm := srm } input uri =
      { result := .error e, log := (localTryPhase env input uri).log,
        tmpDirCreated := (localTryPhase env input uri).tmpDirCreated,
        tmpDirRemoved := (localTryPhase env input uri).tmpRemovedEarly,
        secretsDirCreated := (localTryPhase env input uri).secretsDirCreated,
        secretsDirRemoved := false } := by
  unfold localCheckImageRun applyFinally
  rw [h]


/-! ### Claim theorems: local pipeline failure policy (C5) -/

/-- C5: the stale-image removal and cache-pull outcomes never influence
the run (their failures are swallowed); the run's result is exactly the
fatal chain — context materialization, build, push, tag pushes, digest
inspection — whose first failure aborts the build; and on any fatal
failure the original tool error is propagated unchanged while the logged
diagnostic names the target image reference. -/
theorem localPipeline_failure_policy (env : LocalEnv) (input : LocalBuildInput)
    (uri : String) :
    (∀ rm cp, localCheckImage { env with imageRm := rm, cachePull := cp } input uri =
      localCheckImage env input uri) ∧
    (localCheckImage env input uri).result = localFatalChain env input ∧
    (∀ e, localFatalChain env input = .error e →
      (localCheckImage env input uri).result = .error e ∧
      (localCheckImage env input uri).log = [failMsg uri]) :=
  ⟨fun rm cp => localCheckImage_swallows_optional env input uri rm cp,
   localCheckImage_result_eq_chain env input uri,
   fun e h =>
     ⟨by rw [localCheckImage_result_eq_chain, h],
      by rw [localCheckImage_log_spec, h]⟩⟩

/-- Concrete oracle for the C5 witness: the two best-effort steps fail,
the build itself fails. -/
def localEnvW : LocalEnv :=
  { imageRm := .error "rm failed", cachePull := .error "pull failed",
    tarballCreate := .ok "/arch.tar.gz", extractOk := true,
    dockerBuild := .error "build exploded", dockerPush := .ok (),
    tagPushes := [], inspect := .ok "gcr.io/acme/svc@sha256:abc" }

/-- Concrete input for the C5 witness. -/
def localInputW : LocalBuildInput :=
  { buildDirectory := .gitSource, hasSecrets := true, tags := [] }

/-- C5 witness: swapping the best-effort outcomes changes nothing, and
the failed `docker build` propagates its own error with the reference in
the log line. -/
theorem localPipeline_failure_policy_witness :
    localCheckImage { localEnvW with imageRm := .ok (), cachePull := .ok () }
        localInputW "gcr.io/acme/svc:1.2.3" =
      localCheckImage localEnvW localInputW "gcr.io/acme/svc:1.2.3" ∧
    (localCheckImage localEnvW localInputW "gcr.io/acme/svc:1.2.3").result =
      .error "build exploded" ∧
    (localCheckImage localEnvW localInputW "gcr.io/acme/svc:1.2.3").log =
      [failMsg "gcr.io/acme/svc:1.2.3"] :=
  ⟨(localPipeline_failure_policy localEnvW localInputW "gcr.io/acme/svc:1.2.3").1
     (.ok ()) (.ok ()),
   ((localPipeline_failure_policy localEnvW localInputW "gcr.io/acme/svc:1.2.3").2.2
     "build exploded" (by decide)).1,
   ((localPipeline_failure_policy localEnvW localInputW "gcr.io/acme/svc:1.2.3").2.2
     "build exploded" (by decide)).2⟩

/-! ## The remote build pipeline (`RemoteDockerImage._checkImage`)

The remote executor archives the build context with an explicit cache id
derived from the image URI, uploads it, assembles the Cloud Build step
list, and — when secrets are supplied — resolves the secret values into a
serialized `name=value` bundle that is stored only in a temporary
secret-manager entry; the steps reference it exclusively through the
`KEETA_SECRET` environment binding and a `--secret` mount indirection. -/

/-- One assembled Cloud Build step. -/
structure BuildStep where
  id : Option String
  name : String
  entrypoint : Option String
  args : List String
  env : List String
  secretEnv : List String
  allowFailure : Bool
deriving DecidableEq, Repr

/-- The configuration the remote assembly reads (all non-secret). -/
structure RemoteConfig where
  /-- `this.image` — the resolved `imageURI`. -/
  imageURI : String
  /-- `this.imageBase`. -/
  imageBase : String
  /-- `this.imageCache` (from `cacheFromTag`). -/
  imageCache : Option String
  /-- `input.platform`. -/
  platform : Option String
  /-- `input.buildArgs` entries in insertion order. -/
  buildArgs : List (String × Option String)
  /-- `input.tags`. -/
  tags : List String
  /-- The provider's project. -/
  project : String
  /-- The component resource name passed as `prefix`. -/
  pfx : String
  /-- `Date.now()` at secret-id generation time. -/
  now : Nat
deriving DecidableEq, Repr

/-- `getDockerBuildArgs`: cache-from, platform, then the build args. -/
def getDockerBuildArgs (imageCache platform : Option String)
    (buildArgs : List (String × Option String)) : List String :=
  (match imageCache with | some c => ["--cache-from", c] | none => []) ++
  (match platform with | some p => ["--platform", p] | none => []) ++
  buildArgs.flatMap (fun kv => ["--build-arg", kv.1 ++ "=" ++ kv.2.getD ""])

/-- `getDockerBuildTags`: `imageBase:tag` per additional tag. -/
def getDockerBuildTags (imageBase : String) (tags : List String) : List String :=
  tags.map (fun t => imageBase ++ ":" ++ t)

/-- `resolveSecretsObject`: the serialized `name=value` secret bundle. -/
def resolveSecretsObject (secrets : List (String × String)) : String :=
  String.intercalate "\n" (secrets.map (fun kv => kv.1 ++ "=" ++ kv.2))

/-- In-job directory the secret bundle is materialized into. -/
def remoteSecretFileDirectory : String := "/workspace/secrets"

/-- In-job path of the materialized secret bundle. -/
def remoteSecretFilePath : String := remoteSecretFileDirectory ++ "/keeta-build-secrets.txt"

/-- The environment-variable name the secret is injected through. -/
def keetaSecretEnvName : String := "KEETA_SECRET"

/-- The `create-secret-file` step's shell command: materialize the
injected environment variable at the well-known path. -/
def createSecretFileCmd : String :=
  "mkdir -p " ++ remoteSecretFileDirectory ++ " && echo $$" ++ keetaSecretEnvName ++
    " > " ++ remoteSecretFilePath

/-- The disposable temporary secret-manager id:
`temporary-delete-me-{prefix}-build-secret-{Date.now()}`. -/
def mkSecretId (pfx : String) (now : Nat) : String :=
  "temporary-delete-me-" ++ pfx ++ "-build-secret-" ++ toString now

/-- The secret-manager version name bound to the env var. -/
def secretVersionName (cfg : RemoteConfig) : String :=
  "projects/" ++ cfg.project ++ "/secrets/" ++ mkSecretId cfg.pfx cfg.now ++
    "/versions/latest"

/-- The assembled step list: optional best-effort cache pull, the
secret-materialization step (when secrets are present), the main build
step, one tag step per additional tag. -/
def assembleRemoteSteps (cfg : RemoteConfig) (secretsPresent : Bool) : List BuildStep :=
  (match cfg.imageCache with
   | some c =>
     [{ id := none, name := "gcr.io/cloud-builders/docker", entrypoint := none,
        args := ["pull", c], env := [], secretEnv := [], allowFailure := true }]
   | none => []) ++
  (if secretsPresent then
    [{ id := some "create-secret-file", name := "gcr.io/cloud-builders/gcloud",
       entrypoint := some "bash", args := ["-c", createSecretFileCmd], env := [],
       secretEnv := [keetaSecretEnvName], allowFailure := false }]
   else []) ++
  [{ id := some "build-image", name := "gcr.io/cloud-builders/docker",
     entrypoint := none,
     args := ["build", "-t", cfg.imageURI] ++
       (if secretsPresent then
         ["--secret", "id=secrets,src=" ++ remoteSecretFilePath] else []) ++
       getDockerBuildArgs cfg.imageCache cfg.platform cfg.buildArgs ++ ["."],
     env := if secretsPresent then ["DOCKER_BUILDKIT=1"] else [],
     secretEnv := if secretsPresent then [keetaSecretEnvName] else [],
     allowFailure := false }] ++
  (getDockerBuildTags cfg.imageBase cfg.tags).map (fun t =>
    { id := none, name := "gcr.io/cloud-builders/docker", entrypoint := none,
      args := ["tag", cfg.imageURI, t], env := [], secretEnv := [],
      allowFailure := false })

/-- The non-step outputs of the assembly. -/
structure RemoteAssembled where
  steps : List BuildStep
  /-- `temporarySecret`: (secretId, serialized bundle) — handed to the
  secret manager, never to a step. -/
  temporarySecret : Option (String × String)
  /-- `availableSecrets.secretManager`: (versionName, env name). -/
  availableSecrets : List (String × String)
deriving DecidableEq, Repr

/-- The assembly of `RemoteDockerImage._checkImage` once the context
archive and the secret values are available. -/
def remoteAssemble (cfg : RemoteConfig) (secrets : Option (List (String × String))) :
    RemoteAssembled :=
  { steps := assembleRemoteSteps cfg secrets.isSome,
    temporarySecret :=
      secrets.map (fun s => (mkSecretId cfg.pfx cfg.now, resolveSecretsObject s)),
    availableSecrets :=
      if secrets.isSome then [(secretVersionName cfg, keetaSecretEnvName)] else [] }

/-- All argument strings of an assembled step list. -/
def allStepArgs (steps : List BuildStep) : List String :=
  steps.flatMap (fun st => st.args)

/-- The complete argument listing of the steps assembled with secrets
present, spelled out from non-secret configuration only. -/
def remoteArgListing (cfg : RemoteConfig) : List String :=
  (match cfg.imageCache with | some c => ["pull", c] | none => []) ++
  ["-c", createSecretFileCmd] ++
  (["build", "-t", cfg.imageURI, "--secret", "id=secrets,src=" ++ remoteSecretFilePath] ++
    getDockerBuildArgs cfg.imageCache cfg.platform cfg.buildArgs ++ ["."]) ++
  (getDockerBuildTags cfg.imageBase cfg.tags).flatMap
    (fun t => ["tag", cfg.imageURI, t])
theorem flatMap_args_map {α : Type} (l : List α) (f : α → BuildStep) :
    (l.map f).flatMap (fun st => st.args) = l.flatMap (fun t => (f t).args) := by
  induction l with
  | nil => rfl
  | cons x xs ih => simp [ih]

theorem allStepArgs_assemble (cfg : RemoteConfig) :
    allStepArgs (assembleRemoteSteps cfg true) = remoteArgListing cfg := by
  unfold allStepArgs assembleRemoteSteps remoteArgListing
  cases cfg.imageCache <;>
    simp [flatMap_args_map]

/-! ### Claim theorems: secret non-leakage in remote steps (C3) -/

/-- C3: the assembled step list is identical for any two secret bundles
(step arguments cannot depend on secret values); every argument string of
every step comes from the enumerated non-secret listing, so the
serialized `name=value` bundle never appears in any step's argument list;
the main build step carries only the `--secret id=secrets,src=<path>`
indirection; the secret-materialization step references the secret only
through the `KEETA_SECRET` environment name, which `availableSecrets`
binds to a secret-manager version; the serialized bundle itself travels
only in the temporary-secret payload. -/
theorem remote_secret_nonleakage (cfg : RemoteConfig)
    (s1 s2 : List (String × String)) :
    (remoteAssemble cfg (some s2)).steps = (remoteAssemble cfg (some s1)).steps ∧
    allStepArgs (remoteAssemble cfg (some s1)).steps = remoteArgListing cfg ∧
    (resolveSecretsObject s1 ∉ remoteArgListing cfg →
      resolveSecretsObject s1 ∉ allStepArgs (remoteAssemble cfg (some s1)).steps) ∧
    ((remoteAssemble cfg (some s1)).steps.find?
        (fun st => st.id == some "build-image")).map (fun st => st.args) =
      some (["build", "-t", cfg.imageURI, "--secret",
        "id=secrets,src=" ++ remoteSecretFilePath] ++
        getDockerBuildArgs cfg.imageCache cfg.platform cfg.buildArgs ++ ["."]) ∧
    ((remoteAssemble cfg (some s1)).steps.find?
        (fun st => st.id == some "create-secret-file")).map (fun st => st.secretEnv) =
      some [keetaSecretEnvName] ∧
    (remoteAssemble cfg (some s1)).availableSecrets =
      [(secretVersionName cfg, keetaSecretEnvName)] ∧
    (remoteAssemble cfg (some s1)).temporarySecret =
      some (mkSecretId cfg.pfx cfg.now, resolveSecretsObject s1) := by
  refine ⟨rfl, allStepArgs_assemble cfg, ?_, ?_, ?_, rfl, rfl⟩
  · intro h
    have hsteps : (remoteAssemble cfg (some s1)).steps = assembleRemoteSteps cfg true := rfl
    rw [hsteps, allStepArgs_assemble cfg]
    exact h
  · have hsteps : (remoteAssemble cfg (some s1)).steps = assembleRemoteSteps cfg true := rfl
    rw [hsteps]
    unfold assembleRemoteSteps
    cases cfg.imageCache <;> simp [List.find?]
  · have hsteps : (remoteAssemble cfg (some s1)).steps = assembleRemoteSteps cfg true := rfl
    rw [hsteps]
    unfold assembleRemoteSteps
    cases cfg.imageCache <;> simp [List.find?]

/-- Concrete non-secret configuration for the C3 witness. -/
def remoteCfgW : RemoteConfig :=
  { imageURI := "gcr.io/acme/svc:v1", imageBase := "gcr.io/acme/svc",
    imageCache := some "gcr.io/acme/svc:cache", platform := some "linux/amd64",
    buildArgs := [("MODE", some "prod")], tags := ["cache"],
    project := "acme-proj", pfx := "svc", now := 1700000000000 }

/-- Concrete secret bundle for the C3 witness. -/
def secretsW : List (String × String) := [("API_KEY", "hunter2")]

/-- C3 witness: with one concrete secret, the serialized bundle
"API_KEY=hunter2" appears in no step's argument list, while the build
step carries the mount indirection. -/
theorem remote_secret_nonleakage_witness :
    resolveSecretsObject secretsW ∉ remoteArgListing remoteCfgW ∧
    resolveSecretsObject secretsW ∉
      allStepArgs (remoteAssemble remoteCfgW (some secretsW)).steps ∧
    ((remoteAssemble remoteCfgW (some secretsW)).steps.find?
        (fun st => st.id == some "build-image")).map (fun st => st.args) =
      some (["build", "-t", remoteCfgW.imageURI, "--secret",
        "id=secrets,src=" ++ remoteSecretFilePath] ++
        getDockerBuildArgs remoteCfgW.imageCache remoteCfgW.platform
          remoteCfgW.buildArgs ++ ["."]) :=
  ⟨by decide,
   (remote_secret_nonleakage remoteCfgW secretsW secretsW).2.2.1 (by decide),
   (remote_secret_nonleakage remoteCfgW secretsW secretsW).2.2.2.1⟩

/-! ## The remote run around the assembly (C4's remote half) -/

/-- The remote `buildDirectory` input: a plain path, a directory source
with exclusions, or a git source. -/
inductive RemoteBuildDir : Type
  | plainDir (path : String) : RemoteBuildDir
  | dirSource (directory : String) (excludePatterns : List String) : RemoteBuildDir
  | gitSource : RemoteBuildDir
deriving DecidableEq, Repr

/-- `getBuildTarball`: directory inputs get a `DirTarballArchive`
*with* the URI-derived cache id; git inputs get a `GitTarballArchive`
(whose `clean()` is a no-op, hence never single-use).  Returns whether
the archive is flagged single-use, and the filesystem afterwards. -/
def getBuildTarball (home : String) (fs : FS) (denv : DirTarEnv) (genv : GitTarEnv)
    (buildDir : RemoteBuildDir) (cacheID : String) : Except String (Bool × FS) :=
  match buildDir with
  | .plainDir _ =>
    (createTarballFromDir home fs denv (some cacheID) []).map
      (fun rf => (rf.1.shouldClean, rf.2))
  | .dirSource _ excl =>
    (createTarballFromDir home fs denv (some cacheID) excl).map
      (fun rf => (rf.1.shouldClean, rf.2))
  | .gitSource =>
    (createTarballFromGit home fs genv).map (fun rft => (false, rft.2.1))

theorem createTarballFromDir_explicit_not_single_use (home : String) (fs : FS)
    (env : DirTarEnv) (c : String) (excl : List String) (r : DirTarResult) (fs2 : FS)
    (h : createTarballFromDir home fs env (some c) excl = .ok (r, fs2)) :
    r.shouldClean = false := by
  unfold createTarballFromDir at h
  split at h
  · simp only [Except.ok.injEq, Prod.mk.injEq] at h
    rw [← h.1]
  · split at h
    · exact absurd h (by simp)
    split at h
    · exact absurd h (by simp)
    simp only [Except.ok.injEq, Prod.mk.injEq] at h
    rw [← h.1]
    rfl

theorem getBuildTarball_not_single_use (home : String) (fs : FS) (denv : DirTarEnv)
    (genv : GitTarEnv) (buildDir : RemoteBuildDir) (cacheID : String)
    (su : Bool) (fs2 : FS)
    (h : getBuildTarball home fs denv genv buildDir cacheID = .ok (su, fs2)) :
    su = false := by
  cases buildDir with
  | plainDir p =>
    simp only [getBuildTarball] at h
    cases hct : createTarballFromDir home fs denv (some cacheID) [] with
    | error e => rw [hct] at h; exact absurd h (by simp [Except.map])
    | ok rf =>
      rw [hct] at h
      simp only [Except.map, Except.ok.injEq, Prod.mk.injEq] at h
      rw [← h.1]
      exact createTarballFromDir_explicit_not_single_use home fs denv cacheID []
        rf.1 rf.2 (by rw [hct])
  | dirSource d excl =>
    simp only [getBuildTarball] at h
    cases hct : createTarballFromDir home fs denv (some cacheID) excl with
    | error e => rw [hct] at h; exact absurd h (by simp [Except.map])
    | ok rf =>
      rw [hct] at h
      simp only [Except.map, Except.ok.injEq, Prod.mk.injEq] at h
      rw [← h.1]
      exact createTarballFromDir_explicit_not_single_use home fs denv cacheID excl
        rf.1 rf.2 (by rw [hct])
  | gitSource =>
    simp only [getBuildTarball] at h
    cases hct : createTarballFromGit home fs genv with
    | error e => rw [hct] at h; exact absurd h (by simp [Except.map])
    | ok rft =>
      rw [hct] at h
      simp only [Except.map, Except.ok.injEq, Prod.mk.injEq] at h
      rw [← h.1]

/-- Observable outcome of the remote `_checkImage` assembly phase. -/
structure RemoteRunResult where
  result : Except String RemoteAssembled
  fs : FS
  /-- A single-use (flagged-for-deletion) archive was created. -/
  singleUseArchiveCreated : Bool
  /-- `this.clean()` ran before returning. -/
  cleanCalled : Bool
deriving DecidableEq, Repr

/-- `RemoteDockerImage._checkImage` up to handing the job to Cloud Build:
archive the context (cache id derived from the image URI), resolve the
secret values when supplied, assemble; `clean()` runs on the straight-line
path just before the assembled output is returned. -/
def remoteCheckImage (home : String) (fs : FS) (denv : DirTarEnv) (genv : GitTarEnv)
    (secretsResolve : Except String Unit) (cfg : RemoteConfig)
    (buildDir : RemoteBuildDir) (secrets : Option (List (String × String))) :
    RemoteRunResult :=
  match getBuildTarball home fs denv genv buildDir (utilsHash cfg.imageURI 32) with
  | .error e =>
    { result := .error e, fs := fs, singleUseArchiveCreated := false,
      cleanCalled := false }
  | .ok sufs =>
    match secrets with
    | some s =>
      match secretsResolve with
      | .error e =>
        { result := .error e, fs := sufs.2, singleUseArchiveCreated := sufs.1,
          cleanCalled := false }
      | .ok _ =>
        { result := .ok (remoteAssemble cfg (some s)), fs := sufs.2,
          singleUseArchiveCreated := sufs.1, cleanCalled := true }
    | none =>
      { result := .ok (remoteAssemble cfg none), fs := sufs.2,
        singleUseArchiveCreated := sufs.1, cleanCalled := true }

/-! ### Claim theorems: cleanup and error propagation (C4) -/

/-- Concrete cleanup oracle for the C4 counterexample: the
`fs.rmSync(cleanDir, ...)` inside `clean()` throws. -/
def cleanFailEnvW : CleanupEnv :=
  { cleanTmpRm := .error "rmSync failed: EACCES", secretsRm := .ok () }

set_option maxRecDepth 4096 in
/-- C4 counterexample: a build whose `docker build` failed with its own
error, but whose `finally`-block `rmSync` of the extracted build
directory throws: the cleanup error replaces the original build error in
the propagated result, and the secrets-directory removal is skipped —
refuting both "released ... for every outcome" and "cleanup never masks
or replaces the original error". -/
theorem cleanup_masks_error_counterexample :
    localFatalChain localEnvW localInputW = .error "build exploded" ∧
    (localCheckImageRun localEnvW cleanFailEnvW localInputW
      "gcr.io/acme/svc:1.2.3").result = .error "rmSync failed: EACCES" ∧
    (localCheckImageRun localEnvW cleanFailEnvW localInputW
      "gcr.io/acme/svc:1.2.3").secretsDirCreated = true ∧
    (localCheckImageRun localEnvW cleanFailEnvW localInputW
      "gcr.io/acme/svc:1.2.3").secretsDirRemoved = false := by
  decide

/-- C4 amended: the `finally` block always runs; when its removals
themselves succeed, the local executor releases its temporary build and
secrets directories on every outcome and the result is exactly the fatal
chain (the original error, unmasked) — but a removal that throws replaces
the propagated outcome with the cleanup error and skips the remaining
secrets-directory removal.  The remote executor never creates a
single-use archive (its directory archives always carry the URI-derived
cache id, its git archives are cache-keyed), runs `clean()` whenever
assembly completes, and propagates archive and secret-resolution errors
unchanged. -/
theorem build_cleanup_guarantee
    (lenv : LocalEnv) (cenv : CleanupEnv) (input : LocalBuildInput) (uri : String)
    (home : String) (fs : FS) (denv : DirTarEnv) (genv : GitTarEnv)
    (sres : Except String Unit) (cfg : RemoteConfig)
    (buildDir : RemoteBuildDir) (secrets : Option (List (String × String))) :
    ((localCheckImageRun lenv cenv input uri).tmpDirCreated = true →
      cenv.cleanTmpRm = .ok () →
      (localCheckImageRun lenv cenv input uri).tmpDirRemoved = true) ∧
    ((localCheckImageRun lenv cenv input uri).secretsDirCreated = true →
      cenv.cleanTmpRm = .ok () → cenv.secretsRm = .ok () →
      (localCheckImageRun lenv cenv input uri).secretsDirRemoved = true) ∧
    (cenv.cleanTmpRm = .ok () → cenv.secretsRm = .ok () →
      (localCheckImageRun lenv cenv input uri).result = localFatalChain lenv input) ∧
    (∀ e, (localTryPhase lenv input uri).cleanTmpSet = true →
      cenv.cleanTmpRm = .error e →
      (localCheckImageRun lenv cenv input uri).result = .error e ∧
      (localCheckImageRun lenv cenv input uri).secretsDirRemoved = false) ∧
    (remoteCheckImage home fs denv genv sres cfg buildDir secrets).singleUseArchiveCreated
      = false ∧
    (∀ a, (remoteCheckImage home fs denv genv sres cfg buildDir secrets).result = .ok a →
      (remoteCheckImage home fs denv genv sres cfg buildDir secrets).cleanCalled = true) ∧
    (∀ e, getBuildTarball home fs denv genv buildDir (utilsHash cfg.imageURI 32) = .error e →
      (remoteCheckImage home fs denv genv sres cfg buildDir secrets).result = .error e) ∧
    (∀ e s su fs2,
      getBuildTarball home fs denv genv buildDir (utilsHash cfg.imageURI 32) = .ok (su, fs2) →
      secrets = some s → sres = .error e →
      (remoteCheckImage home fs denv genv sres cfg buildDir secrets).result = .error e) := by
  obtain ⟨ctr, srm⟩ := cenv
  refine ⟨?_, ?_, ?_, ?_, ?_, ?_, ?_, ?_⟩
  · intro hcreated hok
    rw [show ctr = Except.ok () from hok] at hcreated ⊢
    rw [(localCheckImageRun_tmp_ok lenv input uri srm).2]
    apply localTryPhase_tmp lenv input uri
    rw [← (localCheckImageRun_tmp_ok lenv input uri srm).1]
    exact hcreated
  · intro hsc hok1 hok2
    rw [show ctr = Except.ok () from hok1] at hsc ⊢
    rw [show srm = Except.ok () from hok2] at hsc ⊢
    have hsc2 : (localCheckImage lenv input uri).secretsDirCreated = true := hsc
    show (localCheckImage lenv input uri).secretsDirRemoved = true
    rw [localCheckImage_spec] at hsc2 ⊢
    exact hsc2
  · intro hok1 hok2
    rw [show ctr = Except.ok () from hok1, show srm = Except.ok () from hok2]
    show (localCheckImage lenv input uri).result = localFatalChain lenv input
    rw [localCheckImage_spec]
    exact localTryPhase_result lenv input uri
  · intro e hset herr
    rw [show ctr = Except.error e from herr]
    rw [localCheckImageRun_clean_fail lenv input uri e srm hset]
    exact ⟨rfl, rfl⟩
  · unfold remoteCheckImage
    cases hbt : getBuildTarball home fs denv genv buildDir (utilsHash cfg.imageURI 32) with
    | error e => rfl
    | ok sufs =>
      have hsu : sufs.1 = false :=
        getBuildTarball_not_single_use home fs denv genv buildDir _ sufs.1 sufs.2
          (by rw [hbt])
      cases secrets <;> cases sres <;> simp [hsu]
  · unfold remoteCheckImage
    cases hbt : getBuildTarball home fs denv genv buildDir (utilsHash cfg.imageURI 32) with
    | error e => intro a ha; exact absurd ha (by simp)
    | ok sufs =>
      cases secrets <;> cases sres <;> intro a ha <;>
        first
          | rfl
          | exact absurd ha (by simp)
  · intro e he
    unfold remoteCheckImage
    rw [he]
  · intro e s su fs2 hbt hsec hsres
    subst hsec
    subst hsres
    unfold remoteCheckImage
    rw [hbt]

set_option maxRecDepth 8192 in
/-- C4 witness: with successful removals, a concrete failed local build
still removes its build and secrets directories and propagates its own
error; a concrete remote git-source build creates no single-use archive
and runs `clean()`. -/
theorem build_cleanup_guarantee_witness :
    (localCheckImageRun localEnvW cleanupOk localInputW
      "gcr.io/acme/svc:1.2.3").tmpDirRemoved = true ∧
    (localCheckImageRun localEnvW cleanupOk localInputW
      "gcr.io/acme/svc:1.2.3").secretsDirRemoved = true ∧
    (localCheckImageRun localEnvW cleanupOk localInputW
      "gcr.io/acme/svc:1.2.3").result = localFatalChain localEnvW localInputW ∧
    (remoteCheckImage "/root" ⟨[]⟩ dirEnvW gitEnvW (.ok ()) remoteCfgW
      .gitSource (some secretsW)).singleUseArchiveCreated = false ∧
    (remoteCheckImage "/root" ⟨[]⟩ dirEnvW gitEnvW (.ok ()) remoteCfgW
      .gitSource (some secretsW)).cleanCalled = true :=
  ⟨(build_cleanup_guarantee localEnvW cleanupOk localInputW "gcr.io/acme/svc:1.2.3"
      "/root" ⟨[]⟩ dirEnvW gitEnvW (.ok ()) remoteCfgW .gitSource (some secretsW)).1
    (by decide) (by decide),
   (build_cleanup_guarantee localEnvW cleanupOk localInputW "gcr.io/acme/svc:1.2.3"
      "/root" ⟨[]⟩ dirEnvW gitEnvW (.ok ()) remoteCfgW .gitSource (some secretsW)).2.1
    (by decide) (by decide) (by decide),
   (build_cleanup_guarantee localEnvW cleanupOk localInputW "gcr.io/acme/svc:1.2.3"
      "/root" ⟨[]⟩ dirEnvW gitEnvW (.ok ()) remoteCfgW .gitSource (some secretsW)).2.2.1
    (by decide) (by decide),
   (build_cleanup_guarantee localEnvW cleanupOk localInputW "gcr.io/acme/svc:1.2.3"
      "/root" ⟨[]⟩ dirEnvW gitEnvW (.ok ()) remoteCfgW .gitSource (some secretsW)).2.2.2.2.1,
   (build_cleanup_guarantee localEnvW cleanupOk localInputW "gcr.io/acme/svc:1.2.3"
      "/root" ⟨[]⟩ dirEnvW gitEnvW (.ok ()) remoteCfgW .gitSource (some secretsW)).2.2.2.2.2.1
    (remoteAssemble remoteCfgW (some secretsW)) (by decide)⟩


/-! ## Remote result extraction (`buildInfo.results.apply`, docker.ts)

On the job's terminal payload the code requires results to be present and
the built-images list non-empty, requires the first image's name to be
non-null, strips everything from the first `:` of the name, and
recombines with the digest via string interpolation — a null digest is
*not* checked and interpolates as the text "null". -/

/-- One built image of the terminal payload (fields normalized to
null/absent by the dynamic provider). -/
structure BuiltImage where
  name : Option String
  digest : Option String
deriving DecidableEq, Repr

/-- The `results` field of the terminal payload. -/
structure CloudBuildResults where
  images : Option (List BuiltImage)
deriving DecidableEq, Repr

/-- JavaScript `imageName.split(':')[0]`: the prefix before the first
colon. -/
def splitFirstColon (s : String) : String :=
  String.mk (s.data.takeWhile (fun c => c != ':'))

/-- JavaScript template interpolation of a possibly-null value. -/
def jsStr (o : Option String) : String :=
  match o with
  | some s => s
  | none => "null"

/-- The digest-extraction callback of `RemoteDockerImage._checkImage`. -/
def extractBuiltImage (name : String) (results : Option CloudBuildResults) :
    Except String String :=
  match results with
  | none => .error ("No results from build process for " ++ name)
  | some r =>
    match r.images with
    | none => .error ("No images built while building " ++ name)
    | some [] => .error ("No images built while building " ++ name)
    | some (imageInfo :: _) =>
      match imageInfo.name with
      | none => .error ("No image name returned while building " ++ name)
      | some imageName =>
        .ok (splitFirstColon imageName ++ "@" ++ jsStr imageInfo.digest)

/-! ### Claim theorems: terminal-result extraction (C6) -/

/-- C6 counterexample: a terminal payload whose first image has a name
but a missing (null) digest does NOT fail — the code never checks the
digest and returns `{name}@null`. -/
theorem remote_result_missing_digest_counterexample :
    extractBuiltImage "svc"
      (some { images := some [{ name := some "gcr.io/acme/svc:hash_abc",
                                digest := none }] }) =
      .ok "gcr.io/acme/svc@null" := by
  rfl

/-- C6 amended: on terminal success the result is the first built image's
name truncated at the first colon, recombined with its digest as
`{name}@{digest}`; an absent terminal result payload, an empty (or
absent) built-images list, and a missing image name each fail with a hard
error naming the image being built; a missing digest is not checked and
yields `{name}@null`. -/
theorem remote_result_extraction (name n d : String) (dOpt : Option String)
    (rest : List BuiltImage) :
    extractBuiltImage name none =
      .error ("No results from build process for " ++ name) ∧
    extractBuiltImage name (some { images := none }) =
      .error ("No images built while building " ++ name) ∧
    extractBuiltImage name (some { images := some [] }) =
      .error ("No images built while building " ++ name) ∧
    extractBuiltImage name
        (some { images := some ({ name := none, digest := dOpt } :: rest) }) =
      .error ("No image name returned while building " ++ name) ∧
    extractBuiltImage name
        (some { images := some ({ name := some n, digest := some d } :: rest) }) =
      .ok (splitFirstColon n ++ "@" ++ d) ∧
    extractBuiltImage name
        (some { images := some ({ name := some n, digest := none } :: rest) }) =
      .ok (splitFirstColon n ++ "@" ++ "null") :=
  ⟨rfl, rfl, rfl, rfl, rfl, rfl⟩

/-! ## The CloudBuild dynamic provider (`createBuild`, cloudbuild.ts)

`createBuild` creates the temporary secret (when one is supplied),
registers its deletion as a cleanup function, grants the build's service
account access, adds the secret version, submits the job and awaits its
terminal state; any error of those steps is captured, every registered
cleanup function then runs, and only afterwards is the captured error
rethrown. -/

/-- The `temporarySecret` input: disposable id and serialized bundle. -/
structure TempSecretInput where
  secretId : String
  input : String
deriving DecidableEq, Repr

/-- Normalized terminal payload of the remote job. -/
structure CBRetval where
  status : String
  images : List BuiltImage
  logUrl : Option String
  statusDetail : Option String
deriving DecidableEq, Repr

/-- Outcomes of the external service calls of one `createBuild` run. -/
structure CBEnv where
  /-- `secretClient.createSecret`: the created secret's resource name. -/
  createSecret : Except String String
  /-- `secretClient.setIamPolicy`. -/
  setIamPolicy : Except String Unit
  /-- `secretClient.addSecretVersion`. -/
  addSecretVersion : Except String Unit
  /-- `client.createBuild` + awaiting the operation's terminal payload. -/
  runJob : Except String CBRetval
deriving DecidableEq, Repr

/-- External service calls, in execution order. -/
inductive CBEvent : Type
  | createSecretCmd (secretId : String) : CBEvent
  | setIamCmd : CBEvent
  | addVersionCmd : CBEvent
  | submitJobCmd : CBEvent
  | deleteSecretCmd (name : String) : CBEvent
deriving DecidableEq, Repr

/-- The value `createBuild` settles to apart from cleanup: IAM grant
(only when a service account is configured), version add, then the job. -/
def cbChain (env : CBEnv) (sa : Option String) : Except String CBRetval :=
  match sa with
  | some _ =>
    match env.setIamPolicy with
    | .error e => .error e
    | .ok _ =>
      match env.addSecretVersion with
      | .error e => .error e
      | .ok _ => env.runJob
  | none =>
    match env.addSecretVersion with
    | .error e => .error e
    | .ok _ => env.runJob

/-- The version-add and job-submission tail of the run. -/
def cbRunRest (env : CBEnv) : Except String CBRetval × List CBEvent :=
  match env.addSecretVersion with
  | .error e => (.error e, [.addVersionCmd])
  | .ok _ =>
    match env.runJob with
    | .error e => (.error e, [.addVersionCmd, .submitJobCmd])
    | .ok r => (.ok r, [.addVersionCmd, .submitJobCmd])

/-- `createBuild`: with no temporary secret the job runs with no cleanup
registered; with one, the secret is created first, its deletion is
registered, and after the try/catch the registered deletion runs before
any captured error is rethrown. -/
def createBuild (env : CBEnv) (temporarySecret : Option TempSecretInput)
    (sa : Option String) : Except String CBRetval × List CBEvent :=
  match temporarySecret with
  | none =>
    match env.runJob with
    | .error e => (.error e, [.submitJobCmd])
    | .ok r => (.ok r, [.submitJobCmd])
  | some ts =>
    match env.createSecret with
    | .error e => (.error e, [.createSecretCmd ts.secretId])
    | .ok secretName =>
      match sa with
      | some _ =>
        match env.setIamPolicy with
        | .error e =>
          (.error e,
            [.createSecretCmd ts.secretId, .setIamCmd, .deleteSecretCmd secretName])
        | .ok _ =>
          ((cbRunRest env).1,
            [.createSecretCmd ts.secretId, .setIamCmd] ++ (cbRunRest env).2 ++
              [.deleteSecretCmd secretName])
      | none =>
        ((cbRunRest env).1,
          [.createSecretCmd ts.secretId] ++ (cbRunRest env).2 ++
            [.deleteSecretCmd secretName])

/-- The events of a secret-bearing run before the cleanup deletion. -/
def cbPreEvents (env : CBEnv) (ts : TempSecretInput) (sa : Option String) :
    List CBEvent :=
  [.createSecretCmd ts.secretId] ++
  (match sa with
   | some _ =>
     match env.setIamPolicy with
     | .error _ => [.setIamCmd]
     | .ok _ => [.setIamCmd] ++ (cbRunRest env).2
   | none => (cbRunRest env).2)

/-! ### Claim theorems: temporary-secret lifecycle (C10) -/

/-- C10: once the temporary secret is created, the run's trace is the
pre-cleanup events followed by exactly one final `deleteSecret` of that
secret — on the success path and on every failure path — so the deletion
happens after the job's terminal state (the job-submission event, when it
ran, lies in the pre-cleanup part) and the original error is rethrown
only after the deletion has run; and the secret id generated by the
caller carries the disposable `temporary-delete-me-` naming. -/
theorem temporary_secret_lifecycle (env : CBEnv) (ts : TempSecretInput)
    (sa : Option String) (nm : String) (pfx : String) (now : Nat)
    (h : env.createSecret = .ok nm) :
    (createBuild env (some ts) sa).1 = cbChain env sa ∧
    (createBuild env (some ts) sa).2 =
      cbPreEvents env ts sa ++ [.deleteSecretCmd nm] ∧
    CBEvent.deleteSecretCmd nm ∉ cbPreEvents env ts sa ∧
    ((match sa with | some _ => env.setIamPolicy | none => .ok ()) = .ok () →
      env.addSecretVersion = .ok () →
      CBEvent.submitJobCmd ∈ (createBuild env (some ts) sa).2) ∧
    mkSecretId pfx now =
      "temporary-delete-me-" ++ (pfx ++ "-build-secret-" ++ toString now) := by
  unfold createBuild cbChain cbPreEvents cbRunRest
  rw [h]
  cases sa <;> cases hsi : env.setIamPolicy <;> cases hav : env.addSecretVersion <;>
    cases hrj : env.runJob <;>
      refine ⟨rfl, rfl, by simp, ?_, rfl⟩ <;> intro h1 h2 <;> simp_all

/-- Concrete oracle for the C10 witness: everything succeeds except the
job itself. -/
def cbEnvW : CBEnv :=
  { createSecret := .ok "projects/acme-proj/secrets/tmp1",
    setIamPolicy := .ok (), addSecretVersion := .ok (),
    runJob := .error "job failed: step 2 exited 1" }

/-- Concrete temporary-secret input for the C10 witness. -/
def tempSecretW : TempSecretInput :=
  { secretId := "temporary-delete-me-svc-build-secret-1700000000000",
    input := "API_KEY=hunter2" }

/-- C10 witness: the failed job's error is returned, the trace ends with
the deletion of the created secret, and the job submission lies before
it. -/
theorem temporary_secret_lifecycle_witness :
    (createBuild cbEnvW (some tempSecretW) (some "sa@acme-proj.iam")).1 =
      cbChain cbEnvW (some "sa@acme-proj.iam") ∧
    (createBuild cbEnvW (some tempSecretW) (some "sa@acme-proj.iam")).2 =
      cbPreEvents cbEnvW tempSecretW (some "sa@acme-proj.iam") ++
        [.deleteSecretCmd "projects/acme-proj/secrets/tmp1"] ∧
    CBEvent.deleteSecretCmd "projects/acme-proj/secrets/tmp1" ∉
      cbPreEvents cbEnvW tempSecretW (some "sa@acme-proj.iam") ∧
    CBEvent.submitJobCmd ∈
      (createBuild cbEnvW (some tempSecretW) (some "sa@acme-proj.iam")).2 :=
  ⟨(temporary_secret_lifecycle cbEnvW tempSecretW (some "sa@acme-proj.iam")
      "projects/acme-proj/secrets/tmp1" "svc" 1700000000000 (by decide)).1,
   (temporary_secret_lifecycle cbEnvW tempSecretW (some "sa@acme-proj.iam")
      "projects/acme-proj/secrets/tmp1" "svc" 1700000000000 (by decide)).2.1,
   (temporary_secret_lifecycle cbEnvW tempSecretW (some "sa@acme-proj.iam")
      "projects/acme-proj/secrets/tmp1" "svc" 1700000000000 (by decide)).2.2.1,
   (temporary_secret_lifecycle cbEnvW tempSecretW (some "sa@acme-proj.iam")
      "projects/acme-proj/secrets/tmp1" "svc" 1700000000000 (by decide)).2.2.2.1
     (by decide) (by decide)⟩
end PulumiComponents
